import Mathlib

/-!
# MindFriend chat front-end: a shallow embedding with verified properties

This file embeds the conversation state machine of the MindFriend single-page
chat application (src/types.ts and the main App component) into Lean and
proves properties of its operations: message submission with streamed replies
(`handleSendMessage`), conversation analysis (`handleAnalyze`), and the
speech-capture draft policy (`recognition.onresult`).

JavaScript string primitives used by the source (`trim`, `endsWith`, string
truthiness) are given structural definitions over the character list of a
`String`, so that every operation is executable by the kernel.
-/

namespace MindFriend

/-- `role: 'user' | 'model'` from the `Message` interface in src/types.ts. -/
inductive Role where
  | user
  | model
deriving DecidableEq, Repr

/-- The `Message` interface from src/types.ts.  `isError?: boolean` is an
optional field, modelled as `Option Bool`; JavaScript reads it with a
falsy-check `!m.isError`. -/
structure Message where
  id : String
  role : Role
  text : String
  timestamp : Nat
  isError : Option Bool := none
deriving DecidableEq, Repr

/-- The `AnalysisData` interface from src/types.ts. -/
structure AnalysisData where
  mood : String
  symptoms : List String
  solutions : List String
  summary : String
  disclaimer : String
deriving DecidableEq, Repr

/-- The `LoadingState` enum from src/types.ts. -/
inductive LoadingState where
  | IDLE
  | SENDING
  | ANALYZING
deriving DecidableEq, Repr

/-- The React state of the `App` component: `messages`, `inputText`,
`loadingState`, `analysisData`, `showAnalysis`, `isListening`. -/
structure AppState where
  messages : List Message
  inputText : String
  loadingState : LoadingState
  analysisData : Option AnalysisData
  showAnalysis : Bool
  isListening : Bool
deriving DecidableEq, Repr

/-- Strip leading and trailing whitespace from a character list. -/
def trimChars (l : List Char) : List Char :=
  ((l.dropWhile Char.isWhitespace).reverse.dropWhile Char.isWhitespace).reverse

/-- JavaScript `s.trim()`: remove leading and trailing whitespace.  Defined
structurally over the character data so the kernel can evaluate it. -/
def jsTrim (s : String) : String :=
  ⟨trimChars s.data⟩

/-- JavaScript `s.endsWith(suffix)`. -/
def jsEndsWith (s suffix : String) : Bool :=
  suffix.data.isSuffixOf s.data

/-- JavaScript blank test `!s.trim()`: the string trims to the empty string
(the empty string is the only falsy string). -/
def isBlank (s : String) : Bool :=
  jsTrim s == ""

/-- JavaScript falsy test on the optional `isError` field: `!m.isError` is
true exactly when the field is absent or `false`. -/
def isErrorFalsy (m : Message) : Bool :=
  !(m.isError.getD false)

/-- The text of the initial greeting message installed on mount. -/
def greetingText : String :=
  "Hello lovely! ✨ I'm your MindfulMate. I'm here to listen to you with an open heart 💜. How are you feeling today?"

/-- The initial greeting `{ id: 'init-1', role: 'model', text: ..., timestamp: Date.now() }`
installed by the mount effect; `t0` stands for the `Date.now()` reading. -/
def initialGreeting (t0 : Nat) : Message :=
  { id := "init-1", role := .model, text := greetingText, timestamp := t0 }

/-- The application state right after the mount effect ran: the conversation
holds exactly the greeting, the composer is empty, the machine is idle. -/
def initialState (t0 : Nat) : AppState :=
  { messages := [initialGreeting t0]
    inputText := ""
    loadingState := .IDLE
    analysisData := none
    showAnalysis := false
    isListening := false }

/-- The fixed apology text appended when a send fails. -/
def apologyText : String :=
  "Oh no! 🥀 I'm having trouble connecting right now. Please try again in a moment."

/-- The user message built at submission time:
`{ id: Date.now().toString(), role: 'user', text: userText, timestamp: Date.now() }`. -/
def userMessage (now : Nat) (userText : String) : Message :=
  { id := Nat.repr now, role := .user, text := userText, timestamp := now }

/-- The placeholder model message appended once the stream is acquired:
`{ id: responseId, role: 'model', text: '', timestamp: Date.now() }`. -/
def placeholderMessage (responseId : String) (now : Nat) : Message :=
  { id := responseId, role := .model, text := "", timestamp := now }

/-- The error message appended in the `catch` branch of `handleSendMessage`. -/
def errorMessage (now : Nat) : Message :=
  { id := Nat.repr now, role := .model, text := apologyText,
    timestamp := now, isError := some true }

/-- One chunk of the gateway stream carries `chunk.text`, an optional string;
the code reads it as `chunk.text || ''`. -/
def chunkText (c : Option String) : String :=
  c.getD ""

/-- The concatenation of the text fragments of a chunk list. -/
def joinTexts : List (Option String) → String
  | [] => ""
  | c :: cs => chunkText c ++ joinTexts cs

/-- The successive values of `fullResponseText`, one after each chunk,
starting from accumulated text `acc`. -/
def accTexts (acc : String) : List (Option String) → List String
  | [] => []
  | c :: cs =>
      let full := acc ++ chunkText c
      full :: accTexts full cs

/-- How a single send resolves, as seen by `handleSendMessage`: either
`chat.sendMessageStream` itself rejects (`acquireFail`, before the
placeholder is appended), or a stream is acquired that yields `chunks` in
order and then either finishes normally or raises (`raises = true`). -/
inductive StreamOutcome where
  | acquireFail
  | stream (chunks : List (Option String)) (raises : Bool)
deriving DecidableEq, Repr

/-- The per-chunk update inside the `for await` loop: rewrite the message
whose id is `responseId` to carry the accumulated text `full`. -/
def applyDelta (msgs : List Message) (responseId : String) (full : String) :
    List Message :=
  msgs.map (fun m => if m.id = responseId then { m with text := full } else m)

/-- One iteration of the streaming loop, threading the accumulated
`fullResponseText` alongside the state. -/
def streamStep (responseId : String) (st : AppState × String)
    (c : Option String) : AppState × String :=
  let full := st.2 ++ chunkText c
  ({ st.1 with messages := applyDelta st.1.messages responseId full }, full)

/-- The whole run of `handleSendMessage` for one submission against a given
stream outcome, mirroring the source line by line: guard
(`!inputText.trim() || loadingState !== IDLE`), stop listening, clear the
input, append the user message, enter `SENDING`; then either the gateway call
rejects (catch: append the apology message) or the placeholder is appended
and the chunks are folded in, with a trailing apology if the sequence raises;
`finally` always returns to `IDLE`. -/
def handleSendMessage (s : AppState) (now : Nat) (outcome : StreamOutcome) :
    AppState :=
  if isBlank s.inputText ∨ s.loadingState ≠ LoadingState.IDLE then s
  else
    let userText := jsTrim s.inputText
    let s1 : AppState :=
      { s with isListening := false
               inputText := ""
               messages := s.messages ++ [userMessage now userText]
               loadingState := .SENDING }
    match outcome with
    | .acquireFail =>
        { s1 with messages := s1.messages ++ [errorMessage now]
                  loadingState := .IDLE }
    | .stream chunks raises =>
        let responseId := Nat.repr (now + 1)
        let s2 : AppState :=
          { s1 with messages := s1.messages ++ [placeholderMessage responseId now] }
        let s3 := (chunks.foldl (streamStep responseId) (s2, "")).1
        let s4 : AppState :=
          if raises then
            { s3 with messages := s3.messages ++ [errorMessage now] }
          else s3
        { s4 with loadingState := .IDLE }

/-- The history handed to the analysis gateway:
`messages.filter(m => !m.isError && m.text.trim() !== '')`. -/
def validHistory (msgs : List Message) : List Message :=
  msgs.filter (fun m => isErrorFalsy m && !(isBlank m.text))

/-- The whole run of `handleAnalyze` against the analysis gateway.  The
gateway's success value is an arbitrary function `gateway` of the history it
was handed (the code calls `analyzeConversation(validHistory)`); `ok = false`
is the rejection path, whose `catch` only logs.  Mirrors the source: guard
`messages.length < 3`, open the overlay, enter `ANALYZING`, store the data on
success, and `finally` return to `IDLE`. -/
def handleAnalyze (s : AppState) (gateway : List Message → AnalysisData)
    (ok : Bool) : AppState :=
  if s.messages.length < 3 then s
  else
    let s1 : AppState := { s with showAnalysis := true, loadingState := .ANALYZING }
    let s2 : AppState :=
      if ok then { s1 with analysisData := some (gateway (validHistory s.messages)) }
      else s1
    { s2 with loadingState := .IDLE }

/-- The `disabled` condition of the Daily Insight button:
`messages.length < 3 || loadingState === LoadingState.ANALYZING`. -/
def analyzeDisabled (s : AppState) : Bool :=
  decide (s.messages.length < 3) || decide (s.loadingState = LoadingState.ANALYZING)

/-- The `disabled` condition of the send button:
`!inputText.trim() || loadingState !== LoadingState.IDLE`. -/
def sendDisabled (s : AppState) : Bool :=
  isBlank s.inputText || decide (s.loadingState ≠ LoadingState.IDLE)

/-- The separator inserted by `recognition.onresult`:
`baseTextRef.current && !baseTextRef.current.endsWith(' ') ? ' ' : ''`. -/
def draftSeparator (base : String) : String :=
  if base ≠ "" ∧ ¬ jsEndsWith base " " then " " else ""

/-- The accumulated transcript of a recognition event: the concatenation of
`event.results[i][0].transcript` over all result indices `i`. -/
def accumTranscript (results : List String) : String :=
  String.join results

/-- The draft recomputed by `recognition.onresult` from the baseline saved
when listening started and the accumulated transcript of the event:
`setInputText(baseTextRef.current + separator + transcript)`. -/
def onResult (base : String) (results : List String) : String :=
  base ++ draftSeparator base ++ accumTranscript results

/-- The observable side effects of `handleSendMessage`, in program order. -/
inductive Effect where
  | stopListening
  | clearDraft
  | appendUserMsg (text : String)
  | setSending
  | invokeSend (text : String)
  | appendPlaceholder
  | streamDelta (full : String)
  | appendApology
  | setIdle
deriving DecidableEq, Repr

/-- The trace of side effects performed by one run of `handleSendMessage`,
read off the source in program order: the guard returns with no effect;
otherwise `recognition.stop()` when listening, `setInputText('')`, the user
message append, `setLoadingState(SENDING)`, the `sendMessageStream` call, and
then — once the stream is acquired — the placeholder append, one message
rewrite per chunk, the apology append when the sequence raises, and the
`finally` reset to `IDLE`. -/
def sendEffects (s : AppState) (now : Nat) (outcome : StreamOutcome) :
    List Effect :=
  if isBlank s.inputText ∨ s.loadingState ≠ LoadingState.IDLE then []
  else
    let userText := jsTrim s.inputText
    (if s.isListening then [Effect.stopListening] else []) ++
    [Effect.clearDraft, Effect.appendUserMsg userText, Effect.setSending,
     Effect.invokeSend userText] ++
    match outcome with
    | .acquireFail => [Effect.appendApology, Effect.setIdle]
    | .stream chunks raises =>
        Effect.appendPlaceholder ::
        ((accTexts "" chunks).map Effect.streamDelta ++
          (if raises then [Effect.appendApology] else []) ++ [Effect.setIdle])

/-- The individual state updates of the machine, at the granularity at which
the component interleaves them: the synchronous prefix of a submission, the
placeholder append once the stream is acquired, one rewrite per chunk, the
end/error epilogues of a stream, the synchronous prefix of an analysis, and
the success/failure epilogues of an analysis. -/
inductive Step where
  | submit (now : Nat)
  | streamAcquired (now : Nat)
  | streamDelta (responseId full : String)
  | streamEnd
  | streamError (now : Nat)
  | analyze
  | analysisSuccess (data : AnalysisData)
  | analysisFailure

/-- The state update each `Step` performs, read off the source. -/
def stepFn (st : Step) (s : AppState) : AppState :=
  match st with
  | .submit now =>
      if isBlank s.inputText ∨ s.loadingState ≠ LoadingState.IDLE then s
      else
        { s with isListening := false
                 inputText := ""
                 messages := s.messages ++ [userMessage now (jsTrim s.inputText)]
                 loadingState := .SENDING }
  | .streamAcquired now =>
      { s with messages :=
          s.messages ++ [placeholderMessage (Nat.repr (now + 1)) now] }
  | .streamDelta rid full =>
      { s with messages := applyDelta s.messages rid full }
  | .streamEnd => { s with loadingState := .IDLE }
  | .streamError now =>
      { s with messages := s.messages ++ [errorMessage now]
               loadingState := .IDLE }
  | .analyze =>
      if s.messages.length < 3 then s
      else { s with showAnalysis := true, loadingState := .ANALYZING }
  | .analysisSuccess d =>
      { s with analysisData := some d, loadingState := .IDLE }
  | .analysisFailure => { s with loadingState := .IDLE }

/-! ## Concrete fixtures used to evaluate the operations -/

/-- A sample analysis payload. -/
def demoData : AnalysisData :=
  { mood := "calm", symptoms := [], solutions := [], summary := "fine",
    disclaimer := "care" }

/-- Another sample analysis payload, standing for the result of an earlier
successful analysis. -/
def staleData : AnalysisData :=
  { mood := "anxious", symptoms := ["restlessness"], solutions := ["breathe"],
    summary := "prior summary", disclaimer := "not medical advice" }

/-- A conversation of three messages: the greeting, one user turn and one
completed model reply. -/
def threeMessages : List Message :=
  [initialGreeting 0, userMessage 1 "hello",
   { placeholderMessage "2" 1 with text := "welcome" }]

/-- A state in the middle of a send: three messages, a non-blank draft,
`loadingState = SENDING`. -/
def sendingState : AppState :=
  { messages := threeMessages, inputText := "feeling sad",
    loadingState := .SENDING, analysisData := none,
    showAnalysis := false, isListening := false }

/-- An idle state that already holds the result of an earlier analysis. -/
def staleState : AppState :=
  { messages := threeMessages, inputText := "",
    loadingState := .IDLE, analysisData := some staleData,
    showAnalysis := true, isListening := false }

/-! ## Helper lemmas about the streaming fold -/

theorem applyDelta_length (m : List Message) (rid t : String) :
    (applyDelta m rid t).length = m.length :=
  List.length_map m _

theorem applyDelta_append (a b : List Message) (rid t : String) :
    applyDelta (a ++ b) rid t = applyDelta a rid t ++ applyDelta b rid t :=
  List.map_append _ a b

theorem applyDelta_of_forall_ne {m : List Message} {rid : String}
    (h : ∀ x ∈ m, x.id ≠ rid) (t : String) : applyDelta m rid t = m := by
  induction m with
  | nil => rfl
  | cons x xs ih =>
      have hx : x.id ≠ rid := h x (List.mem_cons_self x xs)
      have hxs := ih (fun y hy => h y (List.mem_cons_of_mem x hy))
      simp [applyDelta, hx] at hxs ⊢
      exact hxs

theorem applyDelta_applyDelta (m : List Message) (rid a b : String) :
    applyDelta (applyDelta m rid a) rid b = applyDelta m rid b := by
  induction m with
  | nil => rfl
  | cons x xs ih =>
      by_cases hx : x.id = rid <;> simp [applyDelta, hx] at ih ⊢ <;> exact ih

/-- The streaming loop characterized in closed form: folding the chunk list
leaves the state untouched when there are no chunks, and otherwise rewrites
the in-flight message once with the final accumulated text. -/
theorem foldl_streamStep (rid : String) (cs : List (Option String))
    (s : AppState) (acc : String) :
    cs.foldl (streamStep rid) (s, acc)
      = (if cs.isEmpty then s
         else { s with messages := applyDelta s.messages rid (acc ++ joinTexts cs) },
         acc ++ joinTexts cs) := by
  induction cs generalizing s acc with
  | nil => simp [joinTexts, String.append_empty]
  | cons c cs ih =>
      simp only [List.foldl_cons, streamStep]
      rw [ih]
      by_cases hcs : cs.isEmpty
      · have hcs' : cs = [] := by simpa [List.isEmpty_iff] using hcs
        subst hcs'
        simp [joinTexts, String.append_empty, String.append_assoc]
      · simp [hcs, joinTexts, applyDelta_applyDelta, String.append_assoc]

theorem applyDelta_fresh_append (A : List Message) (rid : String)
    (u ph : Message) (t : String) (hA : ∀ m ∈ A, m.id ≠ rid)
    (hu : u.id ≠ rid) (hph : ph.id = rid) :
    applyDelta (A ++ [u, ph]) rid t = A ++ [u, { ph with text := t }] := by
  rw [applyDelta_append, applyDelta_of_forall_ne hA]
  simp [applyDelta, hu, hph]

/-- A normal or raising stream run of `handleSendMessage` in closed form. -/
theorem send_stream_eq (s : AppState) (now : Nat)
    (chunks : List (Option String)) (raises : Bool)
    (hb : isBlank s.inputText = false) (hl : s.loadingState = LoadingState.IDLE)
    (hfresh : ∀ m ∈ s.messages, m.id ≠ Nat.repr (now + 1))
    (hur : Nat.repr now ≠ Nat.repr (now + 1)) :
    handleSendMessage s now (.stream chunks raises)
      = { s with isListening := false
                 inputText := ""
                 messages := s.messages
                   ++ [userMessage now (jsTrim s.inputText),
                       { placeholderMessage (Nat.repr (now + 1)) now with
                           text := joinTexts chunks }]
                   ++ (if raises then [errorMessage now] else [])
                 loadingState := .IDLE } := by
  have hguard : ¬(isBlank s.inputText = true ∨ s.loadingState ≠ LoadingState.IDLE) := by
    simp [hb, hl]
  simp only [handleSendMessage, if_neg hguard]
  rw [foldl_streamStep]
  by_cases hcs : chunks.isEmpty
  · have hcs' : chunks = [] := by simpa [List.isEmpty_iff] using hcs
    subst hcs'
    cases raises <;>
      simp [joinTexts, placeholderMessage, List.append_assoc]
  · have hmsg := applyDelta_fresh_append s.messages (Nat.repr (now + 1))
      (userMessage now (jsTrim s.inputText))
      (placeholderMessage (Nat.repr (now + 1)) now)
      (joinTexts chunks) hfresh hur rfl
    cases raises <;>
      simp [hcs, String.empty_append, List.append_assoc, hmsg]

/-- A send whose gateway call rejects before a stream exists, in closed form. -/
theorem send_acquireFail_eq (s : AppState) (now : Nat)
    (hb : isBlank s.inputText = false)
    (hl : s.loadingState = LoadingState.IDLE) :
    handleSendMessage s now .acquireFail
      = { s with isListening := false
                 inputText := ""
                 messages := s.messages
                   ++ [userMessage now (jsTrim s.inputText), errorMessage now]
                 loadingState := .IDLE } := by
  have hguard : ¬(isBlank s.inputText = true ∨ s.loadingState ≠ LoadingState.IDLE) := by
    simp [hb, hl]
  simp only [handleSendMessage, if_neg hguard]
  simp [List.append_assoc]

/-- The partial streaming fold in closed form: starting from the state
reached after the submission prefix and the placeholder append, consuming any
chunk list leaves the machine in `SENDING`, with the in-flight message
carrying the concatenation of the consumed chunk texts. -/
theorem sendFold_eq (s : AppState) (now : Nat) (cs : List (Option String))
    (hb : isBlank s.inputText = false) (hl : s.loadingState = LoadingState.IDLE)
    (hfresh : ∀ m ∈ s.messages, m.id ≠ Nat.repr (now + 1))
    (hur : Nat.repr now ≠ Nat.repr (now + 1)) :
    cs.foldl (streamStep (Nat.repr (now + 1)))
        (stepFn (.streamAcquired now) (stepFn (.submit now) s), "")
      = ({ s with isListening := false
                  inputText := ""
                  messages := s.messages
                    ++ [userMessage now (jsTrim s.inputText),
                        { placeholderMessage (Nat.repr (now + 1)) now with
                            text := joinTexts cs }]
                  loadingState := .SENDING },
         joinTexts cs) := by
  have hguard : ¬(isBlank s.inputText = true ∨ s.loadingState ≠ LoadingState.IDLE) := by
    simp [hb, hl]
  rw [foldl_streamStep]
  simp only [stepFn, if_neg hguard]
  by_cases hcs : cs.isEmpty
  · have hcs' : cs = [] := by simpa [List.isEmpty_iff] using hcs
    subst hcs'
    simp [joinTexts, placeholderMessage, List.append_assoc]
  · have hmsg := applyDelta_fresh_append s.messages (Nat.repr (now + 1))
      (userMessage now (jsTrim s.inputText))
      (placeholderMessage (Nat.repr (now + 1)) now)
      (joinTexts cs) hfresh hur rfl
    simp [hcs, String.empty_append, List.append_assoc, hmsg]

/-- Each machine step leaves the existing message list intact: it either
appends messages at the end or rewrites message texts through `applyDelta`. -/
theorem stepFn_messages_shape (st : Step) (s : AppState) :
    (∃ tail, (stepFn st s).messages = s.messages ++ tail) ∨
    (∃ rid full, (stepFn st s).messages = applyDelta s.messages rid full) := by
  cases st with
  | submit now =>
      by_cases h : (isBlank s.inputText = true ∨ s.loadingState ≠ LoadingState.IDLE)
      · exact Or.inl ⟨[], by simp [stepFn, h]⟩
      · exact Or.inl ⟨[userMessage now (jsTrim s.inputText)], by simp [stepFn, h]⟩
  | streamAcquired now =>
      exact Or.inl ⟨[placeholderMessage (Nat.repr (now + 1)) now], rfl⟩
  | streamDelta rid full => exact Or.inr ⟨rid, full, rfl⟩
  | streamEnd => exact Or.inl ⟨[], by simp [stepFn]⟩
  | streamError now => exact Or.inl ⟨[errorMessage now], rfl⟩
  | analyze =>
      by_cases h : s.messages.length < 3 <;>
        exact Or.inl ⟨[], by simp [stepFn, h]⟩
  | analysisSuccess d => exact Or.inl ⟨[], by simp [stepFn]⟩
  | analysisFailure => exact Or.inl ⟨[], by simp [stepFn]⟩

/-! ## The claims -/

/-- C1, counterexample.  The claim says invoking analyze while the activity
state is `SENDING` causes no transition and no state change.  In the code the
analyze handler only guards on the message count, and the Daily Insight
button is disabled only while `ANALYZING` (or with fewer than 3 messages):
at `sendingState` (three messages, state `SENDING`) the button is enabled and
invoking analyze transitions the machine to `ANALYZING`. -/
theorem C1_counterexample :
    analyzeDisabled sendingState = false ∧
    (stepFn Step.analyze sendingState).loadingState = LoadingState.ANALYZING ∧
    stepFn Step.analyze sendingState ≠ sendingState := by decide

/-- C1, amended.  Exactly one `LoadingState` value is active at a time by
construction; the submit operation is gated behind `IDLE` (submitting while
`SENDING` or `ANALYZING` changes nothing), but the analyze operation is not
gated behind `IDLE`: with at least 3 messages it enters `ANALYZING` whatever
the current activity state, and the analyze button stays enabled while
`SENDING`, so a send and an analysis can interleave. -/
theorem C1_amended_gating :
    (∀ (s : AppState) (now : Nat) (o : StreamOutcome),
        s.loadingState ≠ LoadingState.IDLE → handleSendMessage s now o = s) ∧
    (∀ s : AppState, 3 ≤ s.messages.length →
        (stepFn Step.analyze s).loadingState = LoadingState.ANALYZING) ∧
    (∀ s : AppState, s.loadingState = LoadingState.SENDING →
        analyzeDisabled s = decide (s.messages.length < 3)) := by
  refine ⟨?_, ?_, ?_⟩
  · intro s now o h
    unfold handleSendMessage
    rw [if_pos (Or.inr h)]
  · intro s h3
    have h : ¬ s.messages.length < 3 := by omega
    simp [stepFn, h]
  · intro s hs
    simp [analyzeDisabled, hs]

/-- C1, witness for the amended theorem at concrete inputs. -/
theorem C1_amended_gating_witness :
    handleSendMessage sendingState 7 .acquireFail = sendingState ∧
    (stepFn Step.analyze sendingState).loadingState = LoadingState.ANALYZING ∧
    analyzeDisabled sendingState = decide (sendingState.messages.length < 3) :=
  ⟨C1_amended_gating.1 sendingState 7 .acquireFail (by decide),
   C1_amended_gating.2.1 sendingState (by decide),
   C1_amended_gating.2.2 sendingState (by decide)⟩

/-- C2: submitting a blank or whitespace-only draft, or submitting while the
activity state is not `IDLE`, changes nothing at all: the whole state (the
message list, the draft, the activity state and the analysis result) is
returned unchanged. -/
theorem C2_submit_noop (s : AppState) (now : Nat) (o : StreamOutcome)
    (h : isBlank s.inputText = true ∨ s.loadingState ≠ LoadingState.IDLE) :
    handleSendMessage s now o = s := by
  unfold handleSendMessage
  rw [if_pos h]

/-- C2, witness: a whitespace-only draft at the initial state. -/
theorem C2_submit_noop_witness :
    handleSendMessage { initialState 0 with inputText := "   " } 4 .acquireFail
      = { initialState 0 with inputText := "   " } :=
  C2_submit_noop { initialState 0 with inputText := "   " } 4 .acquireFail
    (by decide)

/-- C3, counterexample.  The claim orders the submit side effects as: append
the user message, then clear the draft, then append the placeholder, then
invoke the gateway send.  On a concrete run the trace violates that order:
the draft is cleared before the user message is appended, and the gateway
send is invoked before the placeholder is appended. -/
theorem C3_counterexample :
    ¬ (let t := sendEffects { initialState 0 with inputText := "hi" } 5
         (.stream [] false)
       t.indexOf (Effect.appendUserMsg "hi") < t.indexOf Effect.clearDraft ∧
       t.indexOf Effect.clearDraft < t.indexOf Effect.appendPlaceholder ∧
       t.indexOf Effect.appendPlaceholder < t.indexOf (Effect.invokeSend "hi")) := by
  decide

/-- C3, amended.  For a non-blank submission while idle whose stream is
acquired, the side effects occur in this order: first clear the draft, then
append the finalized user message, then invoke the gateway send, and only
then append the placeholder model message. -/
theorem C3_amended_effect_order (s : AppState) (now : Nat)
    (chunks : List (Option String)) (raises : Bool)
    (hb : isBlank s.inputText = false)
    (hl : s.loadingState = LoadingState.IDLE) :
    ∃ p q r u v : List Effect,
      sendEffects s now (.stream chunks raises)
        = p ++ [Effect.clearDraft] ++ q
          ++ [Effect.appendUserMsg (jsTrim s.inputText)] ++ r
          ++ [Effect.invokeSend (jsTrim s.inputText)] ++ u
          ++ [Effect.appendPlaceholder] ++ v := by
  have hguard : ¬(isBlank s.inputText = true ∨ s.loadingState ≠ LoadingState.IDLE) := by
    simp [hb, hl]
  refine ⟨if s.isListening then [Effect.stopListening] else [], [],
    [Effect.setSending], [],
    (accTexts "" chunks).map Effect.streamDelta
      ++ (if raises then [Effect.appendApology] else []) ++ [Effect.setIdle], ?_⟩
  unfold sendEffects
  rw [if_neg hguard]
  cases hil : s.isListening <;> simp

/-- C3, witness for the amended theorem at a concrete run. -/
theorem C3_amended_effect_order_witness :
    ∃ p q r u v : List Effect,
      sendEffects { initialState 0 with inputText := "hi" } 5 (.stream [] false)
        = p ++ [Effect.clearDraft] ++ q
          ++ [Effect.appendUserMsg (jsTrim "hi")] ++ r
          ++ [Effect.invokeSend (jsTrim "hi")] ++ u
          ++ [Effect.appendPlaceholder] ++ v :=
  C3_amended_effect_order { initialState 0 with inputText := "hi" } 5 [] false
    (by decide) rfl

/-- C4: for every finite chunk sequence, after consuming the first `k` chunks
the in-flight model message carries exactly the concatenation of the first
`k` chunk texts, the accumulated text equals that concatenation, the machine
is still `SENDING` at every such intermediate point, and only once the whole
sequence is exhausted does the completed run leave the in-flight message with
the full concatenation and return the activity state to `IDLE`. -/
theorem C4_stream_progress (s : AppState) (now : Nat)
    (chunks : List (Option String)) (k : Nat)
    (hb : isBlank s.inputText = false)
    (hl : s.loadingState = LoadingState.IDLE)
    (hfresh : ∀ m ∈ s.messages, m.id ≠ Nat.repr (now + 1))
    (hur : Nat.repr now ≠ Nat.repr (now + 1))
    (hk : k ≤ chunks.length) :
    ((chunks.take k).foldl (streamStep (Nat.repr (now + 1)))
        (stepFn (.streamAcquired now) (stepFn (.submit now) s), "")).1.messages
      = s.messages
        ++ [userMessage now (jsTrim s.inputText),
            { placeholderMessage (Nat.repr (now + 1)) now with
                text := joinTexts (chunks.take k) }] ∧
    ((chunks.take k).foldl (streamStep (Nat.repr (now + 1)))
        (stepFn (.streamAcquired now) (stepFn (.submit now) s), "")).2
      = joinTexts (chunks.take k) ∧
    ((chunks.take k).foldl (streamStep (Nat.repr (now + 1)))
        (stepFn (.streamAcquired now) (stepFn (.submit now) s), "")).1.loadingState
      = LoadingState.SENDING ∧
    (handleSendMessage s now (.stream chunks false)).messages
      = s.messages
        ++ [userMessage now (jsTrim s.inputText),
            { placeholderMessage (Nat.repr (now + 1)) now with
                text := joinTexts chunks }] ∧
    (handleSendMessage s now (.stream chunks false)).loadingState
      = LoadingState.IDLE := by
  have hpart := sendFold_eq s now (chunks.take k) hb hl hfresh hur
  have hfull := send_stream_eq s now chunks false hb hl hfresh hur
  rw [hpart, hfull]
  simp

/-- C4, witness: the claim's own example stream `["Hel", "lo"]`; after the
first chunk the in-flight text is `"Hel"`, after the full run it is
`"Hello"` and the machine is idle. -/
theorem C4_stream_progress_witness :
    isBlank "Hey" = false ∧
    (([some "Hel", some "lo"].take 1).foldl (streamStep (Nat.repr (5 + 1)))
        (stepFn (.streamAcquired 5)
          (stepFn (.submit 5) { initialState 0 with inputText := "Hey" }), "")).2
      = joinTexts ([some "Hel", some "lo"].take 1) ∧
    (handleSendMessage { initialState 0 with inputText := "Hey" } 5
        (.stream [some "Hel", some "lo"] false)).messages
      = (initialState 0).messages
        ++ [userMessage 5 (jsTrim "Hey"),
            { placeholderMessage (Nat.repr (5 + 1)) 5 with
                text := joinTexts [some "Hel", some "lo"] }] :=
  ⟨by decide,
   (C4_stream_progress { initialState 0 with inputText := "Hey" } 5
      [some "Hel", some "lo"] 1 (by decide) rfl (by decide) (by decide)
      (by decide)).2.1,
   (C4_stream_progress { initialState 0 with inputText := "Hey" } 5
      [some "Hel", some "lo"] 1 (by decide) rfl (by decide) (by decide)
      (by decide)).2.2.2.1⟩

/-- C5: a send whose gateway call rejects before any stream exists appends
exactly one message beyond the user's message; that message is flagged
`isError` and carries the fixed apology text, and the machine ends `IDLE`.
When a stream was acquired and raises after yielding its chunks, the
partially streamed placeholder is kept as-is with its partial text, the same
single apology message is appended after it, and the machine ends `IDLE`. -/
theorem C5_stream_failure (s : AppState) (now : Nat)
    (hb : isBlank s.inputText = false)
    (hl : s.loadingState = LoadingState.IDLE)
    (hfresh : ∀ m ∈ s.messages, m.id ≠ Nat.repr (now + 1))
    (hur : Nat.repr now ≠ Nat.repr (now + 1)) :
    (handleSendMessage s now .acquireFail).messages
      = s.messages ++ [userMessage now (jsTrim s.inputText), errorMessage now] ∧
    (handleSendMessage s now .acquireFail).messages.length
      = s.messages.length + 2 ∧
    (errorMessage now).isError = some true ∧
    (errorMessage now).text = apologyText ∧
    (handleSendMessage s now .acquireFail).loadingState = LoadingState.IDLE ∧
    ∀ chunks : List (Option String),
      (handleSendMessage s now (.stream chunks true)).messages
        = s.messages
          ++ [userMessage now (jsTrim s.inputText),
              { placeholderMessage (Nat.repr (now + 1)) now with
                  text := joinTexts chunks },
              errorMessage now] ∧
      (handleSendMessage s now (.stream chunks true)).loadingState
        = LoadingState.IDLE := by
  have haf := send_acquireFail_eq s now hb hl
  refine ⟨by rw [haf], by rw [haf]; simp, rfl, rfl, by rw [haf], ?_⟩
  intro chunks
  have hst := send_stream_eq s now chunks true hb hl hfresh hur
  rw [hst]
  simp

/-- C5, witness: a rejected gateway call at the initial state with a fresh
draft, and a stream that raises after one chunk. -/
theorem C5_stream_failure_witness :
    isBlank "help" = false ∧
    (handleSendMessage { initialState 0 with inputText := "help" } 5
        .acquireFail).messages
      = (initialState 0).messages
        ++ [userMessage 5 (jsTrim "help"), errorMessage 5] ∧
    (handleSendMessage { initialState 0 with inputText := "help" } 5
        (.stream [some "Hel"] true)).messages
      = (initialState 0).messages
        ++ [userMessage 5 (jsTrim "help"),
            { placeholderMessage (Nat.repr (5 + 1)) 5 with
                text := joinTexts [some "Hel"] },
            errorMessage 5] :=
  ⟨by decide,
   (C5_stream_failure { initialState 0 with inputText := "help" } 5
      (by decide) rfl (by decide) (by decide)).1,
   ((C5_stream_failure { initialState 0 with inputText := "help" } 5
      (by decide) rfl (by decide) (by decide)).2.2.2.2.2 [some "Hel"]).1⟩

/-- C6, counterexample.  The claim says that on analysis failure the
analysis result is left unset.  At `staleState`, which still holds the result
of an earlier successful analysis, a failing analysis leaves the old result
in place: the result is not unset and the overlay shows stale data. -/
theorem C6_counterexample :
    (handleAnalyze staleState (fun _ => demoData) false).analysisData
      = some staleData ∧
    some staleData ≠ (none : Option AnalysisData) := by decide

/-- C6, amended.  On success the analysis result is replaced wholesale with
the data computed from the filtered history; on failure the previous
analysis result (possibly the data of an earlier analysis) is retained
unchanged — it is unset afterwards only if it was already unset — while the
overlay stays open and the activity state returns to `IDLE` in both cases. -/
theorem C6_amended_analysis_result (s : AppState)
    (gateway : List Message → AnalysisData)
    (h3 : 3 ≤ s.messages.length) :
    (handleAnalyze s gateway true).analysisData
      = some (gateway (validHistory s.messages)) ∧
    (handleAnalyze s gateway true).loadingState = LoadingState.IDLE ∧
    (handleAnalyze s gateway false).analysisData = s.analysisData ∧
    (handleAnalyze s gateway false).loadingState = LoadingState.IDLE ∧
    (handleAnalyze s gateway false).showAnalysis = true := by
  have h : ¬ s.messages.length < 3 := by omega
  simp [handleAnalyze, h]

/-- C6, witness for the amended theorem at `staleState`. -/
theorem C6_amended_analysis_result_witness :
    3 ≤ staleState.messages.length ∧
    (handleAnalyze staleState (fun _ => demoData) false).analysisData
      = staleState.analysisData :=
  ⟨by decide,
   (C6_amended_analysis_result staleState (fun _ => demoData) (by decide)).2.2.1⟩

/-- C7: with fewer than 3 messages, analyze is a no-op returning the state
unchanged; the history handed to the analysis gateway contains exactly the
messages whose `isError` is falsy and whose text is non-blank; and with 3 or
more messages a successful analysis stores a non-`none` result computed from
that filtered history alone. -/
theorem C7_analyze_filter :
    (∀ (s : AppState) (g : List Message → AnalysisData) (ok : Bool),
        s.messages.length < 3 → handleAnalyze s g ok = s) ∧
    (∀ (msgs : List Message) (m : Message),
        m ∈ validHistory msgs
          ↔ m ∈ msgs ∧ isErrorFalsy m = true ∧ isBlank m.text = false) ∧
    (∀ (s : AppState) (g : List Message → AnalysisData),
        3 ≤ s.messages.length →
        (handleAnalyze s g true).analysisData
            = some (g (validHistory s.messages)) ∧
        (handleAnalyze s g true).analysisData ≠ none) := by
  refine ⟨?_, ?_, ?_⟩
  · intro s g ok h
    unfold handleAnalyze
    rw [if_pos h]
  · intro msgs m
    simp [validHistory, List.mem_filter]
  · intro s g h3
    have h : ¬ s.messages.length < 3 := by omega
    simp [handleAnalyze, h]

/-- C7, witness: the no-op at the one-message initial state, the filter
membership at a concrete history, and a stored non-null result at a
three-message state. -/
theorem C7_analyze_filter_witness :
    (initialState 0).messages.length < 3 ∧
    handleAnalyze (initialState 0) (fun _ => demoData) true = initialState 0 ∧
    (initialGreeting 0 ∈ validHistory threeMessages
      ↔ initialGreeting 0 ∈ threeMessages
        ∧ isErrorFalsy (initialGreeting 0) = true
        ∧ isBlank (initialGreeting 0).text = false) ∧
    (handleAnalyze staleState (fun _ => demoData) true).analysisData ≠ none :=
  ⟨by decide,
   C7_analyze_filter.1 (initialState 0) (fun _ => demoData) true (by decide),
   C7_analyze_filter.2.1 threeMessages (initialGreeting 0),
   (C7_analyze_filter.2.2 staleState (fun _ => demoData) (by decide)).2⟩

/-- C8: a speech transcript event recomputes the whole draft from the saved
baseline and the accumulated transcript: the baseline, then a single space
exactly when the baseline is non-empty and does not already end in a space,
then the transcript; in particular baseline `"Hi"` with transcript `"there"`
yields `"Hi there"` and baseline `""` with transcript `"hello"` yields
`"hello"`. -/
theorem C8_draft_recompute :
    (∀ (base : String) (results : List String),
        onResult base results
          = if base = "" ∨ jsEndsWith base " " = true
            then base ++ accumTranscript results
            else base ++ " " ++ accumTranscript results) ∧
    onResult "Hi" ["there"] = "Hi there" ∧
    onResult "" ["hello"] = "hello" := by
  refine ⟨?_, by decide, by decide⟩
  intro base results
  unfold onResult draftSeparator
  by_cases h1 : base = ""
  · simp [h1, String.empty_append]
  · by_cases h2 : jsEndsWith base " " = true
    · simp [h1, h2, String.append_empty]
    · simp [h1, h2]

/-- C9: every machine step either appends messages at the end of the list or
rewrites message texts in place; consequently the message list never shrinks,
across whole send runs included, and a whole analysis run never touches the
message list at all — after any failure the prior history is intact. -/
theorem C9_messages_grow :
    (∀ (st : Step) (s : AppState),
        (∃ tail, (stepFn st s).messages = s.messages ++ tail) ∨
        (∃ rid full, (stepFn st s).messages = applyDelta s.messages rid full)) ∧
    (∀ (st : Step) (s : AppState),
        s.messages.length ≤ (stepFn st s).messages.length) ∧
    (∀ (s : AppState) (now : Nat) (o : StreamOutcome),
        s.messages.length ≤ (handleSendMessage s now o).messages.length) ∧
    (∀ (s : AppState) (g : List Message → AnalysisData) (ok : Bool),
        (handleAnalyze s g ok).messages = s.messages) := by
  refine ⟨stepFn_messages_shape, ?_, ?_, ?_⟩
  · intro st s
    rcases stepFn_messages_shape st s with ⟨tail, h⟩ | ⟨rid, full, h⟩
    · simp [h]
    · simp [h, applyDelta_length]
  · intro s now o
    by_cases hguard : (isBlank s.inputText = true ∨ s.loadingState ≠ LoadingState.IDLE)
    · unfold handleSendMessage
      rw [if_pos hguard]
    · cases o with
      | acquireFail =>
          unfold handleSendMessage
          rw [if_neg hguard]
          simp
      | stream chunks raises =>
          unfold handleSendMessage
          rw [if_neg hguard]
          simp only [foldl_streamStep]
          by_cases hcs : chunks.isEmpty <;>
            cases raises <;>
            simp [hcs, applyDelta_length] <;>
            omega
  · intro s g ok
    by_cases h : s.messages.length < 3 <;>
      cases ok <;>
      simp [handleAnalyze, h]

/-- C10: at application start the conversation holds exactly one message — a
model-role greeting with fixed non-blank text and no error flag; it survives
the analysis filter at the head of any history, and after a single
user/model exchange the conversation has 3 messages, so the analyze action
becomes available. -/
theorem C10_initial_greeting (t0 : Nat) (txt : String) (now : Nat)
    (chunks : List (Option String))
    (hb : isBlank txt = false)
    (hfresh : "init-1" ≠ Nat.repr (now + 1))
    (hur : Nat.repr now ≠ Nat.repr (now + 1)) :
    (initialState t0).messages = [initialGreeting t0] ∧
    (initialGreeting t0).role = Role.model ∧
    isBlank (initialGreeting t0).text = false ∧
    (initialGreeting t0).isError = none ∧
    isErrorFalsy (initialGreeting t0) = true ∧
    (∀ rest : List Message,
        validHistory (initialGreeting t0 :: rest)
          = initialGreeting t0 :: validHistory rest) ∧
    (handleSendMessage { initialState t0 with inputText := txt } now
        (.stream chunks false)).messages.length = 3 ∧
    analyzeDisabled
        (handleSendMessage { initialState t0 with inputText := txt } now
          (.stream chunks false)) = false := by
  have hgr : isBlank greetingText = false := by decide
  have hrun := send_stream_eq { initialState t0 with inputText := txt } now
    chunks false hb rfl
    (by
      intro m hm
      simp [initialState, initialGreeting] at hm
      rw [hm]
      exact hfresh)
    hur
  refine ⟨rfl, rfl, hgr, rfl, rfl, ?_, ?_, ?_⟩
  · intro rest
    have hcond : (isErrorFalsy (initialGreeting t0)
        && !(isBlank (initialGreeting t0).text)) = true := by
      simp [isErrorFalsy, initialGreeting, hgr]
    simp [validHistory, List.filter_cons, hcond]
  · rw [hrun]
    simp [initialState]
  · rw [hrun]
    simp [analyzeDisabled, initialState]

/-- C10, witness at concrete inputs. -/
theorem C10_initial_greeting_witness :
    isBlank "Hey" = false ∧
    "init-1" ≠ Nat.repr (5 + 1) ∧
    (handleSendMessage { initialState 0 with inputText := "Hey" } 5
        (.stream [some "ok"] false)).messages.length = 3 ∧
    analyzeDisabled
        (handleSendMessage { initialState 0 with inputText := "Hey" } 5
          (.stream [some "ok"] false)) = false :=
  ⟨by decide, by decide,
   (C10_initial_greeting 0 "Hey" 5 [some "ok"] (by decide) (by decide)
      (by decide)).2.2.2.2.2.2.1,
   (C10_initial_greeting 0 "Hey" 5 [some "ok"] (by decide) (by decide)
      (by decide)).2.2.2.2.2.2.2⟩

end MindFriend
